import Mathlib

/-!
Verification of the Drive2Sku batch pipeline against its specification.

The definitions below are a shallow embedding of the Go source of the
repository (src/main.go and the connector helpers).  Pure control flow is
translated into Lean functions; the concurrent pipeline of src/main.go
(goroutines communicating over channels) is translated into an explicit
labelled transition system.  Every definition carries a comment pointing
at the source lines it embeds.  Definitions come first, the theorems
about them follow.
-/

namespace Drive2Sku

/-- Item mirrors `type Item` (src/main.go:21-26): one inventory record
parsed from a vendor JSON document. -/
structure Item where
  LocationCode : String
  Quantity : Int
  Sku : String
  WarehouseID : Int
deriving DecidableEq

/-- Payload mirrors `type Payload` (src/main.go:31-35): the batch structure
posted to SKUVault, holding at most 100 items. -/
structure Payload where
  Items : List Item
  TenantToken : String
  UserToken : String
deriving DecidableEq

/-- plCap mirrors `plCap := 100` (src/main.go:184): the payload capacity. -/
def plCap : Nat := 100

/-- throttle mirrors `const throttle = 6300` (src/main.go:37-43): the tick
interval of the dispatcher, in milliseconds.  The source comment reads
"ten 100-object payloads every minute / every 6300 milliseconds, a post is
made". -/
def throttle : Nat := 6300

/-- maxBatchesPerMinute is the sink rate limit the source comment names
("ten 100-object payloads every minute", src/main.go:38-41). -/
def maxBatchesPerMinute : Nat := 10

/-!
The chunker, `chunkToPayloads` (src/main.go:172-235).

A downloaded document decodes into `map[string]map[string]Item`, a
two-level grouping of records.  One run of the chunker visits the groups
in some iteration order and the items of each group in some iteration
order; a run is therefore embedded as a `List (List Item)`: the outer list
is the group order of that run, each inner list the item order.

The Go loop keeps a current payload `pl` (capacity 100) and
  - inner loop, per item (src/main.go:197-220): if `pl` is full it is sent
    on `plBufCh` and replaced by a fresh empty payload, then the item is
    appended;
  - outer loop, per group (src/main.go:222-228): if `pl` is non-empty it
    is sent on `plBufCh` and — unlike the full-payload branch — `pl` is
    NOT reset, so the next group keeps appending to the payload that was
    already sent.
The emitted payloads are collected in order; this is faithful to the Go
slice semantics because `append` never overwrites an index below the
length at which an earlier copy of the slice header was sent.
-/

/-- procItem embeds one iteration of the inner item loop of
chunkToPayloads (src/main.go:197-220).  State: payloads emitted so far,
and the items of the payload currently being filled. -/
def procItem (c : Nat) (st : List (List Item) × List Item) (iv : Item) :
    List (List Item) × List Item :=
  if st.2.length = c then
    (st.1 ++ [st.2], [iv])
  else
    (st.1, st.2 ++ [iv])

/-- procGroup embeds one iteration of the outer group loop of
chunkToPayloads (src/main.go:194-229): process the group's items, then
flush the current payload if non-empty, keeping it in hand (no reset). -/
def procGroup (c : Nat) (st : List (List Item) × List Item) (g : List Item) :
    List (List Item) × List Item :=
  let st2 := g.foldl (procItem c) st
  if st2.2.length ≠ 0 then (st2.1 ++ [st2.2], st2.2) else st2

/-- chunkToPayloads embeds the payload-producing part of the function of
the same name (src/main.go:172-235): the list of payload item-lists sent
on `plBufCh`, in emission order, for one run whose iteration order is
`doc`. -/
def chunkToPayloads (c : Nat) (doc : List (List Item)) : List (List Item) :=
  (doc.foldl (procGroup c) ([], [])).1

/-- totalRecords is the number of records a document's iteration view
contains: the sum of the group sizes. -/
def totalRecords (doc : List (List Item)) : Nat :=
  (doc.map List.length).sum

/-- xItem is a concrete record used in counterexamples. -/
def xItem : Item :=
  { LocationCode := "L1", Quantity := 5, Sku := "SKU-A", WarehouseID := 1 }

/-- yItem is a second concrete record used in counterexamples. -/
def yItem : Item :=
  { LocationCode := "L2", Quantity := 7, Sku := "SKU-B", WarehouseID := 2 }

/-- twoGroupDoc is a document with two groups holding one record each,
iterated with the x-group first. -/
def twoGroupDoc : List (List Item) := [[xItem], [yItem]]

/-- twoGroupDocRev is the same document iterated with the y-group first
(Go map iteration order is randomized, so both views arise from the same
input bytes). -/
def twoGroupDocRev : List (List Item) := [[yItem], [xItem]]

/-!
The chunker's surroundings (src/main.go:172-235): after downloading, the
body is decoded by `json.NewDecoder(res.Body).Decode(&vsd)` whose error
value is DISCARDED (src/main.go:192); on a malformed body `vsd` keeps its
initial empty-map value.  After the loops, the file is unconditionally
sent on `fCh` (src/main.go:231), which is the deletion pipeline:
`deleteFiles` (src/main.go:241-255) receives each file from `fCh` and
issues the drive delete call for it.
-/

/-- ParseResult is the outcome of decoding a downloaded document body:
either the nested map, in this run's iteration order, or a decode error. -/
inductive ParseResult where
  | ok (doc : List (List Item))
  | malformed
deriving DecidableEq

/-- decodeDoc embeds `json.NewDecoder(res.Body).Decode(&vsd)` at
src/main.go:190-192: the returned error is discarded, so a malformed body
leaves `vsd` as the empty map. -/
def decodeDoc : ParseResult → List (List Item)
  | .ok doc => doc
  | .malformed => []

/-- ChunkRun records the observable effects of one chunkToPayloads call
on a successfully downloaded document (src/main.go:172-235). -/
structure ChunkRun where
  payloads : List (List Item)
  fileForwarded : Bool
  parseErrorReported : Bool
  fatal : Bool
deriving DecidableEq

/-- chunkRun embeds the whole of chunkToPayloads after the download
succeeded: decode (error discarded), chunk, then the unconditional
`fCh <- f` handing the file to the deletion loop (src/main.go:231).
No parse error is ever reported and no parse failure is fatal, because
the Decode error value is dropped on the floor. -/
def chunkRun (c : Nat) (pr : ParseResult) : ChunkRun :=
  { payloads := chunkToPayloads c (decodeDoc pr)
  , fileForwarded := true
  , parseErrorReported := false
  , fatal := false }

/-!
The sink connector: `responseStatus` (src/unnamed/part_001:250-256) and
`writeVault` (src/main.go:260-285).
-/

/-- ErrorBody mirrors `type ErrorBody` (src/main.go:290-296). -/
structure ErrorBody where
  Sku : String
  Code : Int
  LocationCode : String
  WarehouseID : Int
  ErrorMessages : List String
deriving DecidableEq

/-- ResponseBody mirrors `type ResponseBody` (src/main.go:301-304). -/
structure ResponseBody where
  Status : String
  Errors : List ErrorBody
deriving DecidableEq

/-- commaSep is the separator string of the `strings.Join` call in
responseStatus. -/
def commaSep : String := ", "

/-- responseStatus embeds the function of the same name
(src/unnamed/part_001:250-256):
`strings.Join(body.Errors[0].ErrorMessages[:], ", ")`.
The index expression `body.Errors[0]` panics at runtime when `Errors` is
empty; the panic is modelled as `none`. -/
def responseStatus (body : ResponseBody) : Option String :=
  match body.Errors with
  | [] => none
  | e :: _ => some (String.intercalate commaSep e.ErrorMessages)

/-- SinkResult is what `vaultRequest` (src/unnamed/part_001:167-179)
hands back to writeVault: a transport error, or an HTTP response with a
status code and a decoded body. -/
inductive SinkResult where
  | transportError
  | response (statusCode : Nat) (body : ResponseBody)
deriving DecidableEq

/-- WriteEffect records the observable effects of one writeVault call
(src/main.go:260-285): whether the process aborted via log.Fatalf,
whether the payload was pushed back onto `plBufCh`, whether a runtime
panic occurred, and the echoed log line if the call returned normally. -/
structure WriteEffect where
  fatal : Bool
  reenqueued : Bool
  panicked : Bool
  echoed : Option String
deriving DecidableEq

/-- uploadMsg is the echo line of writeVault (src/main.go:283):
`"Uploaded payload (len/cap)" ++ errExt`. -/
def uploadMsg (pl : Payload) (ext : String) : String :=
  "Uploaded payload (" ++ toString pl.Items.length ++ "/" ++
    toString plCap ++ ")" ++ ext

/-- writeVault embeds the function of the same name (src/main.go:260-285).
On a transport error it calls log.Fatalf (src/main.go:272-274), aborting
the process; there is no re-enqueue of the payload anywhere (the
`plBufCh <- pl` line of the older revision src/unnamed/part_003:422 sits
after log.Fatalf and is unreachable).  On a response it builds `errExt`
(empty below status 400, otherwise `"; " ++ responseStatus`) and echoes
the upload line; when the error body has no entries, responseStatus
panics and the panic propagates. -/
def writeVault (pl : Payload) (r : SinkResult) : WriteEffect :=
  match r with
  | .transportError =>
      { fatal := true, reenqueued := false, panicked := false, echoed := none }
  | .response statusCode body =>
      if statusCode < 400 then
        { fatal := false, reenqueued := false, panicked := false
        , echoed := some (uploadMsg pl "") }
      else
        match responseStatus body with
        | none =>
            { fatal := false, reenqueued := false, panicked := true
            , echoed := none }
        | some s =>
            { fatal := false, reenqueued := false, panicked := false
            , echoed := some (uploadMsg pl ("; " ++ s)) }

/-- pl0 is a concrete one-item payload used in counterexamples. -/
def pl0 : Payload := { Items := [xItem], TenantToken := "T", UserToken := "U" }

/-- errA is the first error entry of the two-error response body. -/
def errA : ErrorBody :=
  { Sku := "SKU-A", Code := 1, LocationCode := "L1", WarehouseID := 1
  , ErrorMessages := ["bad sku"] }

/-- errB is the second error entry of the two-error response body. -/
def errB : ErrorBody :=
  { Sku := "SKU-B", Code := 2, LocationCode := "L2", WarehouseID := 2
  , ErrorMessages := ["bad warehouse"] }

/-- bodyTwoErrors is a failure response body reporting two errors. -/
def bodyTwoErrors : ResponseBody :=
  { Status := "Error", Errors := [errA, errB] }

/-- bodyNoErrors is a failure response body whose error list is empty. -/
def bodyNoErrors : ResponseBody := { Status := "Error", Errors := [] }

/-!
Operational model of the concurrent pipeline of src/main.go.

Goroutines and channels of the source:
  - one chunker goroutine per listed file (`go chunkToPayloads(*f)`,
    src/main.go:155-160): it pushes its payloads onto the buffered channel
    `plBufCh` (capacity 10, src/main.go:64) and then sends its file on the
    unbuffered channel `fCh` (src/main.go:231);
  - `readDrive` (src/main.go:147-167) sends the file count `n` on the
    unbuffered channel `delFCh` after spawning the chunkers;
  - the main loop (src/main.go:101-111) selects between a throttle tick
    (dequeue one payload from `plBufCh` and spawn `writeVault` on it) and
    a receive on `delFCh`, which runs `deleteFiles(n)` synchronously:
    `deleteFiles` (src/main.go:241-255) receives `n` files from `fCh` and
    issues the drive delete call for each, immediately on receipt.

Each transition below is one of these communications.  Sends on the
unbuffered channels are modelled as rendezvous: they fire only when the
receiving side is at its matching receive.  Sink sends always succeed in
this model (a successful DispatchOutcome is the best case for the
deletion claims).
-/

/-- QBatch is a payload on the dispatch path, tagged with the document it
was chunked from. -/
structure QBatch where
  doc : Nat
  items : List Item
deriving DecidableEq

/-- ChunkSt is the program counter of one chunker goroutine
(chunkToPayloads, src/main.go:172-235): still emitting payloads, blocked
at the `fCh <- f` send, or finished. -/
inductive ChunkSt where
  | emitting (rest : List QBatch)
  | sendingFile
  | done
deriving DecidableEq

/-- MainSt is the program counter of the main goroutine
(src/main.go:101-111): in the select loop, or inside `deleteFiles` with
`k` receives left. -/
inductive MainSt where
  | selecting
  | deleting (k : Nat)
deriving DecidableEq

/-- ReadSt is the program counter of the readDrive goroutine
(src/main.go:147-167): about to send the file count on `delFCh`, or
finished. -/
inductive ReadSt where
  | reporting (n : Nat)
  | done
deriving DecidableEq

/-- PState is the global state of the pipeline: the chunker goroutines,
the main and readDrive goroutines, the `plBufCh` buffer, the writeVault
goroutines whose POST has not yet completed, the successful
DispatchOutcomes recorded, and the drive delete calls issued, in order. -/
structure PState where
  chunkers : Nat → ChunkSt
  mainSt : MainSt
  readSt : ReadSt
  plBuf : List QBatch
  inflight : List QBatch
  outcomes : List QBatch
  deleted : List Nat

/-- Act labels the pipeline transitions; each corresponds to one channel
communication or call in src/main.go. -/
inductive Act where
  | emit (d : Nat)
  | finishChunk (d : Nat)
  | handoff (d : Nat)
  | report
  | finishDelete
  | tick
  | send (d : Nat) (items : List Item)
deriving DecidableEq

/-- updf updates one chunker's program counter. -/
def updf (f : Nat → ChunkSt) (d : Nat) (v : ChunkSt) : Nat → ChunkSt :=
  fun e => if e = d then v else f e

/-- step is the transition function of the pipeline.  An action that is
not enabled in the current state leaves the state unchanged.
  - `emit d`: chunker `d` sends its next payload on `plBufCh`
    (src/main.go:207/227); enabled while the buffer holds fewer than 10
    payloads (src/main.go:64).
  - `finishChunk d`: chunker `d` has emitted everything and reaches the
    `fCh <- f` send (src/main.go:231).
  - `handoff d`: `deleteFiles` receives chunker `d`'s file from `fCh` and
    immediately issues the drive delete call for it (src/main.go:244-253);
    a rendezvous, so it needs main inside `deleteFiles` with receives
    left and chunker `d` blocked at its send.
  - `report`: readDrive sends `n` on `delFCh` (src/main.go:165) and the
    select loop takes that branch, calling `deleteFiles(n)`
    (src/main.go:105-106).
  - `finishDelete`: `deleteFiles` has received all `n` files and returns
    to the select loop.
  - `tick`: a throttle tick fires while main is in the select loop: main
    dequeues one payload from `plBufCh` and spawns `writeVault` on it
    (src/main.go:103-104).
  - `send d items`: a spawned writeVault completes its POST successfully,
    recording a successful DispatchOutcome (src/main.go:271-283). -/
def step (s : PState) (a : Act) : PState :=
  match a with
  | .emit d =>
      match s.chunkers d with
      | .emitting (b :: rest) =>
          if s.plBuf.length < 10 then
            { s with chunkers := updf s.chunkers d (.emitting rest)
                   , plBuf := s.plBuf ++ [b] }
          else s
      | _ => s
  | .finishChunk d =>
      match s.chunkers d with
      | .emitting [] => { s with chunkers := updf s.chunkers d .sendingFile }
      | _ => s
  | .handoff d =>
      match s.mainSt, s.chunkers d with
      | .deleting (k + 1), .sendingFile =>
          { s with mainSt := .deleting k
                 , chunkers := updf s.chunkers d .done
                 , deleted := s.deleted ++ [d] }
      | _, _ => s
  | .report =>
      match s.mainSt, s.readSt with
      | .selecting, .reporting n =>
          { s with mainSt := .deleting n, readSt := .done }
      | _, _ => s
  | .finishDelete =>
      match s.mainSt with
      | .deleting 0 => { s with mainSt := .selecting }
      | _ => s
  | .tick =>
      match s.mainSt, s.plBuf with
      | .selecting, b :: rest =>
          { s with plBuf := rest, inflight := s.inflight ++ [b] }
      | _, _ => s
  | .send d items =>
      let b : QBatch := { doc := d, items := items }
      if b ∈ s.inflight then
        { s with inflight := s.inflight.erase b, outcomes := s.outcomes ++ [b] }
      else s

/-- runActs folds a schedule of actions over a starting state. -/
def runActs (s : PState) (acts : List Act) : PState :=
  acts.foldl step s

/-- b0 is the single batch document 0 produces in the counterexample
scenario. -/
def b0 : QBatch := { doc := 0, items := [xItem] }

/-- c3Init is the pipeline state right after readDrive listed one file
(document 0, whose chunker will emit the single batch b0) and spawned its
chunker: main is in the select loop, readDrive is about to send the count
1 on `delFCh`, and nothing has been buffered, dispatched or deleted. -/
def c3Init : PState :=
  { chunkers := fun d => if d = 0 then .emitting [b0] else .done
  , mainSt := .selecting
  , readSt := .reporting 1
  , plBuf := []
  , inflight := []
  , outcomes := []
  , deleted := [] }

/-- c3Acts is a schedule the Go runtime can realize (it is in fact the
typical one, since the first throttle tick only fires 6.3 seconds in):
chunker 0 buffers its batch and reaches the `fCh` send, readDrive reports
the count, and `deleteFiles` receives and deletes the file — all before
any tick dispatches the batch. -/
def c3Acts : List Act := [.emit 0, .finishChunk 0, .report, .handoff 0]

/-- DelInvOn states the deletion discipline over the delete log and the
chunker states: every document is deleted at most once, and only after
its chunker has fully finished (all batches emitted and the file handed
off). -/
def DelInvOn (del : List Nat) (ch : Nat → ChunkSt) : Prop :=
  ∀ d, del.count d ≤ 1 ∧ (d ∈ del → ch d = ChunkSt.done)

/-- zeroInit is the pipeline state after readDrive listed one file
(document 0) whose chunker has nothing to emit. -/
def zeroInit : PState :=
  { chunkers := fun d => if d = 0 then .emitting [] else .done
  , mainSt := .selecting
  , readSt := .reporting 1
  , plBuf := []
  , inflight := []
  , outcomes := []
  , deleted := [] }

/-- zeroActs is the schedule of a zero-record document: the chunker
reaches the `fCh` send straight away, readDrive reports the count, and
`deleteFiles` deletes the file. -/
def zeroActs : List Act := [.finishChunk 0, .report, .handoff 0]

/-!
Theorems.  Each claim of the specification gets one theorem below (plus,
where the claim fails on the code, a closed counterexample, and, where
the theorem has hypotheses, a closed witness); the remaining theorems are
helper lemmas.
-/

/-- Claim C1: every record parsed from a document belongs to exactly one
emitted batch, and the batch sizes sum to the number of records parsed.
This fails on the code: for a document with two singleton groups the
partial-payload flush at src/main.go:222-228 re-sends the payload of the
first group without resetting it, so the first record appears in two
batches and the sizes sum to 3 for a 2-record document. -/
theorem c1_record_duplicated :
    chunkToPayloads plCap twoGroupDoc = [[xItem], [xItem, yItem]] ∧
    ((chunkToPayloads plCap twoGroupDoc).map List.length).sum = 3 ∧
    totalRecords twoGroupDoc = 2 ∧
    (chunkToPayloads plCap twoGroupDoc).flatten.count xItem = 2 := by
  decide

/-- Claim C2: a document with N records and capacity 100 yields
ceil(N / 100) batches.  This fails on the code: the two-record document
`twoGroupDoc` yields 2 batches while ceil(2 / 100) = 1. -/
theorem c2_batch_count_wrong :
    (chunkToPayloads plCap twoGroupDoc).length = 2 ∧
    (totalRecords twoGroupDoc + plCap - 1) / plCap = 1 := by
  decide

/-- Claim C7: chunking the same input bytes twice yields the same multiset
of records across batches.  This fails on the code: the duplication
introduced by the no-reset partial flush depends on the (randomized) map
iteration order, so the two views of the same document produce different
multisets. -/
theorem c7_multiset_differs :
    twoGroupDoc.Perm twoGroupDocRev ∧
    ¬ (Multiset.ofList (chunkToPayloads plCap twoGroupDoc).flatten =
       Multiset.ofList (chunkToPayloads plCap twoGroupDocRev).flatten) := by
  decide

/-- Claim C5: a malformed document body is reported as a parse error and
the document is skipped (not deleted).  This fails on the code: the
Decode error is ignored, the document is treated as empty, no error is
reported, and the file is still forwarded on `fCh`, where `deleteFiles`
deletes it. -/
theorem c5_malformed_deleted :
    chunkRun plCap .malformed =
      { payloads := []
      , fileForwarded := true
      , parseErrorReported := false
      , fatal := false } := by
  decide

/-- Claim C4 (counterexample): a batch whose send fails is re-enqueued and
the pipeline keeps running.  False on the code: a transport failure makes
writeVault abort the whole process via log.Fatalf, and the payload is not
re-enqueued. -/
theorem c4_transport_failure_fatal :
    (writeVault pl0 .transportError).fatal = true ∧
    (writeVault pl0 .transportError).reenqueued = false := by
  decide

/-- Claim C4 (amended): writeVault never re-enqueues a payload, and it is
fatal exactly on a transport error; an error response only changes the
echoed diagnostic (or panics on an empty error list). -/
theorem c4_no_reenqueue (pl : Payload) (r : SinkResult) :
    (writeVault pl r).reenqueued = false ∧
    ((writeVault pl r).fatal = true ↔ r = .transportError) := by
  cases r with
  | transportError => exact ⟨rfl, by simp [writeVault]⟩
  | response statusCode body =>
      simp only [writeVault]
      by_cases hlt : statusCode < 400
      · simp [hlt]
      · cases h : responseStatus body <;> simp [hlt, h]

/-- Claim C9 (counterexample): the surfaced diagnostic is the join of the
ErrorMessages of all reported errors.  False on the code: responseStatus
reads only `body.Errors[0]`, so the second error's messages are dropped. -/
theorem c9_first_error_only :
    responseStatus bodyTwoErrors = some ("bad sku") ∧
    responseStatus bodyTwoErrors ≠
      some (String.intercalate commaSep
        ((bodyTwoErrors.Errors.map ErrorBody.ErrorMessages).flatten)) := by
  decide

/-- Claim C9 (amended): for a failure response (status at least 400) whose
body reports at least one error, the diagnostic writeVault surfaces in
its echo line is the join of the ErrorMessages of the FIRST reported
error. -/
theorem c9_first_error_joined (pl : Payload) (statusCode : Nat)
    (body : ResponseBody) (e : ErrorBody) (rest : List ErrorBody)
    (hs : 400 ≤ statusCode) (he : body.Errors = e :: rest) :
    (writeVault pl (.response statusCode body)).echoed =
      some (uploadMsg pl ("; " ++ String.intercalate commaSep e.ErrorMessages)) := by
  have hnlt : ¬ statusCode < 400 := Nat.not_lt.mpr hs
  simp [writeVault, responseStatus, he, hnlt]

/-- Witness for c9_first_error_joined at a concrete failure response. -/
theorem c9_first_error_joined_witness :
    400 ≤ 400 ∧ bodyTwoErrors.Errors = errA :: [errB] ∧
    (writeVault pl0 (.response 400 bodyTwoErrors)).echoed =
      some (uploadMsg pl0 ("; " ++ String.intercalate commaSep errA.ErrorMessages)) :=
  ⟨by decide, by decide,
    c9_first_error_joined pl0 400 bodyTwoErrors errA [errB] (by decide) (by decide)⟩

/-- Claim C10: on a failure response whose decoded body has an empty
Errors list, responseStatus indexes `body.Errors[0]` out of range, so the
error-reporting branch of writeVault panics instead of producing a
diagnostic.  Confirmed: the panic is modelled as `none` / `panicked`. -/
theorem c10_empty_errors_panic (pl : Payload) (statusCode : Nat)
    (body : ResponseBody) (hs : 400 ≤ statusCode) (he : body.Errors = []) :
    (writeVault pl (.response statusCode body)).panicked = true ∧
    responseStatus body = none := by
  have hnlt : ¬ statusCode < 400 := Nat.not_lt.mpr hs
  simp [writeVault, responseStatus, he, hnlt]

/-- Witness for c10_empty_errors_panic at a concrete empty-error
response. -/
theorem c10_empty_errors_panic_witness :
    400 ≤ 400 ∧ bodyNoErrors.Errors = [] ∧
    ((writeVault pl0 (.response 400 bodyNoErrors)).panicked = true ∧
      responseStatus bodyNoErrors = none) :=
  ⟨by decide, by decide, c10_empty_errors_panic pl0 400 bodyNoErrors (by decide) rfl⟩

/-- Claim C3 (counterexample): a document is never deleted before every
batch derived from it has a successful DispatchOutcome recorded.  False
on the code: deletion is gated only on chunking completion (`fCh` is fed
at src/main.go:231, before any dispatch confirmation exists), so after
the schedule c3Acts document 0 is deleted while its only batch still sits
undispatched in `plBufCh` and no DispatchOutcome has been recorded. -/
theorem c3_deleted_before_dispatch :
    (runActs c3Init c3Acts).deleted = [0] ∧
    (runActs c3Init c3Acts).outcomes = [] ∧
    (runActs c3Init c3Acts).plBuf = [b0] := by
  decide

/-- delInvOn_update: updating a chunker that has not finished preserves
the deletion discipline, whatever the new program counter is. -/
theorem delInvOn_update (del : List Nat) (ch : Nat → ChunkSt) (d0 : Nat)
    (v : ChunkSt) (h : DelInvOn del ch) (h0 : ch d0 ≠ ChunkSt.done) :
    DelInvOn del (updf ch d0 v) := by
  intro d
  obtain ⟨h1, h2⟩ := h d
  refine ⟨h1, fun hd => ?_⟩
  unfold updf
  by_cases he : d = d0
  · exact absurd (he ▸ h2 hd) h0
  · simpa [he] using h2 hd

/-- delInvOn_handoff: deleting a document whose chunker is blocked at the
`fCh` send, and marking it finished, preserves the deletion discipline. -/
theorem delInvOn_handoff (del : List Nat) (ch : Nat → ChunkSt) (d0 : Nat)
    (h : DelInvOn del ch) (h0 : ch d0 = ChunkSt.sendingFile) :
    DelInvOn (del ++ [d0]) (updf ch d0 ChunkSt.done) := by
  have hd0 : d0 ∉ del := by
    intro hm
    have := (h d0).2 hm
    rw [h0] at this
    cases this
  intro d
  obtain ⟨h1, h2⟩ := h d
  constructor
  · rw [List.count_append]
    by_cases he : d = d0
    · subst he
      have : del.count d = 0 := List.count_eq_zero.mpr hd0
      simp [this]
    · simp [List.count_cons, List.count_nil, he, h1]
  · intro hd
    rcases List.mem_append.mp hd with hd | hd
    · unfold updf
      by_cases he : d = d0
      · exact absurd (he ▸ hd) hd0
      · simpa [he] using h2 hd
    · have he : d = d0 := by simpa using hd
      simp [updf, he]

/-- delInv_step: every pipeline transition preserves the deletion
discipline. -/
theorem delInv_step (s : PState) (a : Act)
    (h : DelInvOn s.deleted s.chunkers) :
    DelInvOn (step s a).deleted (step s a).chunkers := by
  cases a with
  | emit d =>
      rcases hc : s.chunkers d with rest | _ | _
      · cases rest with
        | nil => simpa [step, hc] using h
        | cons b bs =>
            by_cases hb : s.plBuf.length < 10
            · simpa [step, hc, hb] using
                delInvOn_update s.deleted s.chunkers d (.emitting bs) h
                  (by rw [hc]; intro hh; cases hh)
            · simpa [step, hc, hb] using h
      · simpa [step, hc] using h
      · simpa [step, hc] using h
  | finishChunk d =>
      rcases hc : s.chunkers d with rest | _ | _
      · cases rest with
        | nil =>
            simpa [step, hc] using
              delInvOn_update s.deleted s.chunkers d .sendingFile h
                (by rw [hc]; intro hh; cases hh)
        | cons b bs => simpa [step, hc] using h
      · simpa [step, hc] using h
      · simpa [step, hc] using h
  | handoff d =>
      rcases hm : s.mainSt with _ | k
      · simpa [step, hm] using h
      · cases k with
        | zero =>
            rcases hc : s.chunkers d with rest | _ | _ <;>
              simpa [step, hm, hc] using h
        | succ k =>
            rcases hc : s.chunkers d with rest | _ | _
            · simpa [step, hm, hc] using h
            · simpa [step, hm, hc] using
                delInvOn_handoff s.deleted s.chunkers d h hc
            · simpa [step, hm, hc] using h
  | report =>
      rcases hm : s.mainSt with _ | k <;> rcases hr : s.readSt with n | _ <;>
        simpa [step, hm, hr] using h
  | finishDelete =>
      rcases hm : s.mainSt with _ | k
      · simpa [step, hm] using h
      · cases k <;> simpa [step, hm] using h
  | tick =>
      rcases hm : s.mainSt with _ | k
      · cases hb : s.plBuf <;> simpa [step, hm, hb] using h
      · simpa [step, hm] using h
  | send d items =>
      by_cases hb : ({ doc := d, items := items } : QBatch) ∈ s.inflight <;>
        simpa [step, hb] using h

/-- delInv_run: the deletion discipline is preserved by any schedule. -/
theorem delInv_run (s0 : PState) (acts : List Act)
    (h : DelInvOn s0.deleted s0.chunkers) :
    DelInvOn (runActs s0 acts).deleted (runActs s0 acts).chunkers := by
  rw [runActs]
  induction acts generalizing s0 with
  | nil => exact h
  | cons a acts ih =>
      rw [List.foldl_cons]
      exact ih (step s0 a) (delInv_step s0 a h)

/-- Claim C3 (amended): across every schedule of the pipeline started
from a state with an empty delete log, each document's delete call is
issued at most once, and only once its chunker has fully finished
(every batch emitted and the file handed off) — deletion is gated on
chunking completion, not on dispatch confirmation. -/
theorem c3_delete_once_after_chunking (s0 : PState) (acts : List Act)
    (h0 : s0.deleted = []) (d : Nat) :
    ((runActs s0 acts).deleted.count d ≤ 1) ∧
    (d ∈ (runActs s0 acts).deleted →
      (runActs s0 acts).chunkers d = ChunkSt.done) := by
  refine delInv_run s0 acts ?_ d
  intro e
  simp [h0]

/-- Witness for c3_delete_once_after_chunking on the concrete
counterexample run. -/
theorem c3_delete_once_after_chunking_witness :
    c3Init.deleted = [] ∧
    (((runActs c3Init c3Acts).deleted.count 0 ≤ 1) ∧
      (0 ∈ (runActs c3Init c3Acts).deleted →
        (runActs c3Init c3Acts).chunkers 0 = ChunkSt.done)) :=
  ⟨rfl, c3_delete_once_after_chunking c3Init c3Acts rfl 0⟩

/-- chunk_empty_groups: folding the group loop over groups that are all
empty neither emits a payload nor touches the payload in hand. -/
theorem chunk_empty_groups (c : Nat) (doc : List (List Item))
    (out : List (List Item)) (h : ∀ g ∈ doc, g = []) :
    doc.foldl (procGroup c) (out, []) = (out, []) := by
  induction doc generalizing out with
  | nil => rfl
  | cons g gs ih =>
      have hg : g = [] := h g (by simp)
      subst hg
      rw [List.foldl_cons]
      have hstep : procGroup c (out, []) [] = (out, []) := rfl
      rw [hstep]
      exact ih out (fun g hg => h g (by simp [hg]))

/-- Claim C6: a document that yields zero records produces no batches,
the chunker still hands the file to the deletion channel, and the
pipeline deletes the document without any batch for it ever being
dispatched.  Confirmed: the empty nested map makes both loops emit
nothing (so nothing of this document can ever reach the sink), the
unconditional `fCh <- f` still runs, and the deletion schedule ends with
the document deleted and no DispatchOutcome recorded. -/
theorem c6_zero_records (pr : ParseResult)
    (h : totalRecords (decodeDoc pr) = 0) :
    (chunkRun plCap pr).payloads = [] ∧
    (chunkRun plCap pr).fileForwarded = true ∧
    (runActs zeroInit zeroActs).deleted = [0] ∧
    (runActs zeroInit zeroActs).outcomes = [] := by
  refine ⟨?_, rfl, by decide, by decide⟩
  have hg : ∀ g ∈ decodeDoc pr, g = [] := by
    intro g hgmem
    have := (List.sum_eq_zero_iff.mp h) g.length
      (List.mem_map.mpr ⟨g, hgmem, rfl⟩)
    exact List.length_eq_zero.mp this
  show chunkToPayloads plCap (decodeDoc pr) = []
  unfold chunkToPayloads
  rw [chunk_empty_groups plCap (decodeDoc pr) [] hg]

/-- Witness for c6_zero_records at a concrete empty document. -/
theorem c6_zero_records_witness :
    totalRecords (decodeDoc (.ok [])) = 0 ∧
    ((chunkRun plCap (.ok [])).payloads = [] ∧
      (chunkRun plCap (.ok [])).fileForwarded = true ∧
      (runActs zeroInit zeroActs).deleted = [0] ∧
      (runActs zeroInit zeroActs).outcomes = []) :=
  ⟨rfl, c6_zero_records (.ok []) rfl⟩

/-!
Claim C8: the throttled dispatcher (src/main.go:100-104).  The ticker is
`time.Tick(throttle * time.Millisecond)` with `throttle = 6300`; each
tick, main dequeues exactly one payload and spawns one `writeVault` on it
(the `tick` transition of `step` above).  The sink's published limit is
ten payloads per minute (src/main.go:38-39), so the interval the spec
derives would be 60000 / 10 = 6000 milliseconds — the code's interval is
6300 milliseconds, not 60 s / maxBatchesPerMinute.
-/

/-- Claim C8 (counterexample): the tick interval equals 60 seconds
divided by maxBatchesPerMinute.  False on the code: the constant is
6300 ms while 60000 / 10 = 6000 ms. -/
theorem c8_interval_mismatch :
    throttle ≠ 60000 / maxBatchesPerMinute ∧
    throttle * maxBatchesPerMinute ≠ 60000 := by
  decide

/-- c8_steps: spacing consecutive sends at least one throttle interval
apart accumulates linearly. -/
theorem c8_steps (t : Nat → Nat) (hgap : ∀ i, t i + throttle ≤ t (i + 1)) :
    ∀ i k : Nat, t i + k * throttle ≤ t (i + k) := by
  intro i k
  induction k with
  | zero => simp
  | succ k ih =>
      calc t i + (k + 1) * throttle = t i + k * throttle + throttle := by ring_nf
        _ ≤ t (i + k) + throttle := by omega
        _ ≤ t (i + k + 1) := hgap (i + k)

/-- Claim C8 (amended): one payload is dequeued per tick, the tick
interval is `throttle` = 6300 ms rather than 60 s / maxBatchesPerMinute,
and any sequence of send instants spaced at least one tick interval apart
puts at most maxBatchesPerMinute = 10 sends into any rolling 60-second
window. -/
theorem c8_window_bound (t : Nat → Nat) (N W : Nat)
    (hgap : ∀ i, t i + throttle ≤ t (i + 1)) :
    ((Finset.range N).filter (fun i => W ≤ t i ∧ t i < W + 60000)).card
      ≤ maxBatchesPerMinute := by
  by_contra hlt
  push_neg at hlt
  set S := (Finset.range N).filter (fun i => W ≤ t i ∧ t i < W + 60000) with hS
  have hmax : maxBatchesPerMinute = 10 := rfl
  have hne : S.Nonempty := Finset.card_pos.mp (by omega)
  set a := S.min' hne with ha
  set b := S.max' hne with hb
  have hsub : S ⊆ Finset.Icc a b :=
    fun x hx => Finset.mem_Icc.mpr ⟨S.min'_le x hx, S.le_max' x hx⟩
  have hcard : S.card ≤ b + 1 - a := by
    have := Finset.card_le_card hsub
    rwa [Nat.card_Icc] at this
  have hamem := Finset.mem_filter.mp (S.min'_mem hne)
  have hbmem := Finset.mem_filter.mp (S.max'_mem hne)
  have hab : a ≤ b := S.min'_le b (S.max'_mem hne)
  have hchain := c8_steps t hgap a (b - a)
  rw [Nat.add_sub_cancel' hab] at hchain
  have hthr : throttle = 6300 := rfl
  have hmul : 10 * 6300 ≤ (b - a) * 6300 :=
    Nat.mul_le_mul_right 6300 (by omega)
  have hwa : W ≤ t a := hamem.2.1
  have hwb : t b < W + 60000 := hbmem.2.2
  rw [hthr] at hchain
  omega

/-- Witness for c8_window_bound on the exact tick schedule. -/
theorem c8_window_bound_witness :
    (∀ i : Nat, 6300 * i + throttle ≤ 6300 * (i + 1)) ∧
    ((Finset.range 12).filter
        (fun i => 0 ≤ 6300 * i ∧ 6300 * i < 0 + 60000)).card
      ≤ maxBatchesPerMinute :=
  ⟨fun i => by
      have hthr : throttle = 6300 := rfl
      omega
  , c8_window_bound (fun i => 6300 * i) 12 0
      (fun i => by
        show 6300 * i + throttle ≤ 6300 * (i + 1)
        have hthr : throttle = 6300 := rfl
        omega)⟩

end Drive2Sku
